import Mathlib

/-!
Shallow embedding of `src/Project2.cpp` (FeatureTrackingApp): a Cinder/OpenCV
optical-flow demo.  The original numerical work (`cv::goodFeaturesToTrack`,
`cv::calcOpticalFlowPyrLK`) and the camera/rendering lifecycle live in external
libraries; here they are parameters (`Collaborators`) while the orchestration
code of the repository (`setup`, `update`, `findOpticalFlow`, `mouseDown`, the
line-drawing loop of `draw`) is embedded faithfully.  Every collaborator
invocation performed by a tick is recorded in a call log so that claims about
which collaborator runs when can be stated.
-/

namespace Project2

/-- Abstract camera frame / `cv::Mat` contents.  The conversion
`toOcv (Channel surface)` is modelled as the identity on this abstract type. -/
abbrev Frame := Nat

/-- A 2D feature point (`cv::Point2f`); coordinates are modelled exactly. -/
abbrev Point := Int × Int

/-- An opaque mouse event (the handler ignores it entirely). -/
abbrev MouseEvent := Nat

/-- `#define SAMPLE_WINDOW_MOD 300` (line 46). -/
def SAMPLE_WINDOW_MOD : Nat := 300

/-- `#define MAX_FEATURES 300` (line 47). -/
def MAX_FEATURES : Nat := 300

/-- The hard-coded quality level `0.005` passed to `cv::goodFeaturesToTrack`. -/
def QUALITY_LEVEL : ℚ := 5 / 1000

/-- The hard-coded minimum distance `3.0` passed to `cv::goodFeaturesToTrack`. -/
def MIN_DISTANCE : ℚ := 3

/-- The two external vision-library collaborators, as black-box functions:
`goodFeaturesToTrack (img, maxCount, qualityLevel, minDistance)` returning the
detected corners, and `calcOpticalFlowPyrLK (prevImg, curImg, prevPts)`
returning `(curPts, statusFlags, errorMagnitudes)`. -/
structure Collaborators where
  goodFeaturesToTrack : Frame → Nat → ℚ → ℚ → List Point
  calcOpticalFlowPyrLK : Frame → Frame → List Point → List Point × List Nat × List ℚ

/-- A record of one invocation of an external vision collaborator, with the
arguments the repository code passes. -/
inductive Call where
  | detect (img : Frame) (maxCount : Nat) (qualityLevel minDistance : ℚ)
  | flow (prevImg curImg : Frame) (prevPts : List Point)
deriving DecidableEq, Repr

/-- `true` on the `Call.detect` constructor (a `cv::goodFeaturesToTrack` call). -/
def Call.isDetect : Call → Bool
  | Call.detect _ _ _ _ => true
  | Call.flow _ _ _ => false

/-- `true` on the `Call.flow` constructor (a `cv::calcOpticalFlowPyrLK` call). -/
def Call.isFlow : Call → Bool
  | Call.detect _ _ _ _ => false
  | Call.flow _ _ _ => true

/-- The mutable fields of `FeatureTrackingApp` (lines 61-69).  `mCapture` is
whether the capture handle was created; `mPrevFrame = none` models
`mPrevFrame.data == NULL`.  `mTexture` and `mSurface` hold the latest frame in
its two representations. -/
structure AppState where
  mCapture : Bool
  mTexture : Option Frame
  mSurface : Option Frame
  mPrevFrame : Option Frame
  mPrevFeatures : List Point
  mFeatures : List Point
  mFeatureStatuses : List Nat
deriving DecidableEq, Repr

/-- Default-constructed member state before `setup` runs: null capture, null
texture/surface/previous frame, empty vectors. -/
def initialState : AppState :=
  { mCapture := false
    mTexture := none
    mSurface := none
    mPrevFrame := none
    mPrevFeatures := []
    mFeatures := []
    mFeatureStatuses := [] }

/-- `FeatureTrackingApp::setup` (lines 75-88): try to create the capture
(`cameraOk` says whether `Capture::create` succeeds); on failure the exception
is caught and logged (the returned list is the diagnostic log).  Either way
`mPrevFrame.data = NULL`. -/
def setup (cameraOk : Bool) : AppState × List String :=
  if cameraOk then
    ({ initialState with mCapture := true }, [])
  else
    ({ initialState with mCapture := false }, ["Failed to init capture "])

/-- `FeatureTrackingApp::mouseDown` (lines 91-110): the body is entirely
commented out, so the handler leaves the state untouched. -/
def mouseDown (_ : MouseEvent) (s : AppState) : AppState := s

/-- `FeatureTrackingApp::findOpticalFlow` (lines 131-177).  Returns the new
state together with the log of collaborator calls made during this invocation.
`elapsedFrames` is the Cinder frame counter `getElapsedFrames()`. -/
def findOpticalFlow (ext : Collaborators) (elapsedFrames : Nat) (s : AppState) :
    AppState × List Call :=
  match s.mSurface with
  | none => (s, [])
  | some surface =>
    let curFrame : Frame := surface
    match s.mPrevFrame with
    | none =>
      ({ s with mPrevFrame := some curFrame }, [])
    | some prevFrame =>
      let redetect : Bool :=
        s.mFeatures.isEmpty || elapsedFrames % SAMPLE_WINDOW_MOD == 0
      let detected : List Point :=
        if redetect then
          ext.goodFeaturesToTrack curFrame MAX_FEATURES QUALITY_LEVEL MIN_DISTANCE
        else s.mFeatures
      let detectCalls : List Call :=
        if redetect then
          [Call.detect curFrame MAX_FEATURES QUALITY_LEVEL MIN_DISTANCE]
        else []
      if detected.isEmpty then
        ({ s with mFeatures := detected
                  mPrevFeatures := detected
                  mPrevFrame := some curFrame }, detectCalls)
      else
        let result := ext.calcOpticalFlowPyrLK prevFrame curFrame detected
        ({ s with mFeatures := result.1
                  mPrevFeatures := detected
                  mFeatureStatuses := result.2.1
                  mPrevFrame := some curFrame },
         detectCalls ++ [Call.flow prevFrame curFrame detected])

/-- `FeatureTrackingApp::update` (lines 112-129).  `newFrame` is the frame the
camera delivers on this tick (`none` when `checkNewFrame()` is false); it is
accepted only when the capture handle exists, and `findOpticalFlow` runs
unconditionally afterwards. -/
def update (ext : Collaborators) (newFrame : Option Frame) (elapsedFrames : Nat)
    (s : AppState) : AppState × List Call :=
  let s1 : AppState :=
    match s.mCapture, newFrame with
    | true, some f => { s with mSurface := some f, mTexture := some f }
    | _, _ => s
  findOpticalFlow ext elapsedFrames s1

/-- A whole run of update ticks; each tick supplies what the camera delivers on
that tick and the value of `getElapsedFrames()`.  The second component
accumulates all collaborator calls of the run. -/
def runUpdates (ext : Collaborators) (ticks : List (Option Frame × Nat))
    (s : AppState) : AppState × List Call :=
  List.foldl
    (fun acc t =>
      let r := update ext t.1 t.2 acc.1
      (r.1, acc.2 ++ r.2))
    (s, []) ticks

/-- One iteration of the line-drawing loop of `FeatureTrackingApp::draw`
(lines 209-214): at index `idx` a segment from `mFeatures[idx]` to
`mPrevFeatures[idx]` is emitted exactly when `mFeatureStatuses[idx]` is
nonzero. -/
def lineForIndex (s : AppState) (idx : Nat) : Option (Point × Point) :=
  if s.mFeatureStatuses.getD idx 0 ≠ 0 then
    some (s.mFeatures.getD idx (0, 0), s.mPrevFeatures.getD idx (0, 0))
  else none

/-- All flow-line segments emitted by the drawing loop of
`FeatureTrackingApp::draw` (lines 207-215). -/
def drawFlowLines (s : AppState) : List (Point × Point) :=
  (List.range s.mFeatures.length).filterMap (lineForIndex s)

/-- The documented contract of the external `cv::calcOpticalFlowPyrLK`: the
output point and status vectors have the same length as the input point
vector (tracking losses are signalled through status flags, not by
resizing). -/
def FlowContract (ext : Collaborators) : Prop :=
  ∀ pf cf pts,
    (ext.calcOpticalFlowPyrLK pf cf pts).1.length = pts.length ∧
    (ext.calcOpticalFlowPyrLK pf cf pts).2.1.length = pts.length

/-- A concrete collaborator pair used to instantiate theorems: detection
always finds the single corner `(0, 0)`, and flow moves every point by
`(1, 1)` and marks it matched. -/
def extMove : Collaborators :=
  { goodFeaturesToTrack := fun _ _ _ _ => [((0 : Int), (0 : Int))]
    calcOpticalFlowPyrLK := fun _ _ pts =>
      (pts.map (fun p => (p.1 + 1, p.2 + 1)), pts.map (fun _ => 1),
       pts.map (fun _ => 0)) }

/-- `s.mFeatures = [] ∨ s.mFeatures.length ≤ s.mFeatureStatuses.length`: the
bound that makes the unchecked `mFeatureStatuses[idx]` read in the line loop
of `draw` stay in bounds. -/
def statusesCover (s : AppState) : Prop :=
  s.mFeatures = [] ∨ s.mFeatures.length ≤ s.mFeatureStatuses.length

/-- A state in which a frame has already been delivered and stored as the
previous frame, with no features tracked yet. -/
def state0 : AppState :=
  { mCapture := true
    mTexture := some 0
    mSurface := some 0
    mPrevFrame := some 0
    mPrevFeatures := []
    mFeatures := []
    mFeatureStatuses := [] }

/-- A state right after one successful flow computation on a single tracked
feature: the match succeeded and the point moved from `(0, 0)` to `(1, 1)`. -/
def state1 : AppState :=
  { mCapture := true
    mTexture := some 1
    mSurface := some 1
    mPrevFrame := some 1
    mPrevFeatures := [((0 : Int), (0 : Int))]
    mFeatures := [((1 : Int), (1 : Int))]
    mFeatureStatuses := [1] }

theorem flowContract_extMove : FlowContract extMove := by
  intro pf cf pts
  simp [extMove]

theorem update_none_eq_findOpticalFlow (ext : Collaborators) (n : Nat) (s : AppState) :
    update ext none n s = findOpticalFlow ext n s := by
  rcases s with ⟨cap, tex, surf, prevf, pfs, fs, sts⟩
  cases cap <;> rfl

theorem findOpticalFlow_noSurface (ext : Collaborators) (n : Nat) (s : AppState)
    (hs : s.mSurface = none) : findOpticalFlow ext n s = (s, []) := by
  rcases s with ⟨cap, tex, surf, prevf, pfs, fs, sts⟩
  obtain rfl : surf = none := hs
  rfl

theorem update_dead_capture (ext : Collaborators) (nf : Option Frame) (n : Nat)
    (s : AppState) (hcap : s.mCapture = false) (hs : s.mSurface = none) :
    update ext nf n s = (s, []) := by
  rcases s with ⟨cap, tex, surf, prevf, pfs, fs, sts⟩
  obtain rfl : cap = false := hcap
  obtain rfl : surf = none := hs
  cases nf <;> rfl

theorem runUpdates_fixed (ext : Collaborators) (ticks : List (Option Frame × Nat))
    (s : AppState) (acc : List Call) (hcap : s.mCapture = false)
    (hs : s.mSurface = none) :
    List.foldl
      (fun acc t =>
        let r := update ext t.1 t.2 acc.1
        (r.1, acc.2 ++ r.2))
      (s, acc) ticks = (s, acc) := by
  induction ticks generalizing acc with
  | nil => rfl
  | cons t ts ih =>
    rw [List.foldl_cons]
    have hup : update ext t.1 t.2 s = (s, []) := update_dead_capture ext t.1 t.2 s hcap hs
    simp only [hup, List.append_nil]
    exact ih acc

/-- C10: the `mouseDown` handler has an empty body (everything in it is
commented out), so every mouse event leaves the whole application state
exactly as it was. -/
theorem C10_mouseDown_noop (ev : MouseEvent) (s : AppState) : mouseDown ev s = s := rfl

/-- C2: on the very first update call that receives a camera frame (no stored
previous frame), neither collaborator is invoked; the frame is stored into
`mSurface`, `mTexture` and `mPrevFrame`, and the feature lists are untouched
(so they are still empty). -/
theorem C2_first_frame_stores_and_skips (ext : Collaborators) (f : Frame) (n : Nat)
    (s : AppState) (hcap : s.mCapture = true) (hprev : s.mPrevFrame = none) :
    update ext (some f) n s =
      ({ s with mTexture := some f, mSurface := some f, mPrevFrame := some f }, []) ∧
    (update ext (some f) n s).1.mFeatures = s.mFeatures ∧
    (update ext (some f) n s).1.mPrevFeatures = s.mPrevFeatures := by
  rcases s with ⟨cap, tex, surf, prevf, pfs, fs, sts⟩
  obtain rfl : cap = true := hcap
  obtain rfl : prevf = none := hprev
  exact ⟨rfl, rfl, rfl⟩

theorem C2_witness :
    update extMove (some 5) 0 (setup true).1 =
      ({ (setup true).1 with
          mTexture := some 5, mSurface := some 5, mPrevFrame := some 5 }, []) ∧
    (update extMove (some 5) 0 (setup true).1).1.mFeatures = (setup true).1.mFeatures ∧
    (update extMove (some 5) 0 (setup true).1).1.mPrevFeatures =
      (setup true).1.mPrevFeatures :=
  C2_first_frame_stores_and_skips extMove 5 0 (setup true).1 rfl rfl

/-- C4 counterexample: a tick on which the camera delivers no new frame is not
a no-op once a frame is already stored: from `state0` (stored stale surface,
stored previous frame, empty feature list) a no-frame tick still invokes the
Feature Detector and changes the tracking state. -/
theorem C4_counterexample :
    (update extMove none 1 state0).2.any Call.isDetect = true ∧
    (update extMove none 1 state0).1 ≠ state0 := by
  constructor
  · decide
  · decide

/-- C4 amended: a tick with no new frame skips only the frame intake and still
runs `findOpticalFlow` on the previously stored surface; it is a full no-op
(state unchanged, no collaborator calls) when no surface has ever been
stored. -/
theorem C4_no_frame_tick (ext : Collaborators) (n : Nat) (s : AppState) :
    update ext none n s = findOpticalFlow ext n s ∧
    (s.mSurface = none → update ext none n s = (s, [])) := by
  refine ⟨update_none_eq_findOpticalFlow ext n s, fun hs => ?_⟩
  rw [update_none_eq_findOpticalFlow ext n s, findOpticalFlow_noSurface ext n s hs]

theorem C4_witness :
    update extMove none 3 initialState = findOpticalFlow extMove 3 initialState ∧
    (initialState.mSurface = none → update extMove none 3 initialState = (initialState, [])) :=
  C4_no_frame_tick extMove 3 initialState

/-- C8: when capture initialization fails, exactly one diagnostic message is
logged and execution continues; from that state every subsequent run of update
ticks leaves the state unchanged and invokes no collaborator at all. -/
theorem C8_capture_failure_noop (ext : Collaborators)
    (ticks : List (Option Frame × Nat)) :
    (setup false).2.length = 1 ∧
    runUpdates ext ticks (setup false).1 = ((setup false).1, []) := by
  exact ⟨rfl, runUpdates_fixed ext ticks (setup false).1 [] rfl rfl⟩

/-- C1: on every tick with a stored previous frame (and a stored surface), the
Feature Detector runs exactly when the current feature list is empty or
`getElapsedFrames() % 300 == 0`; on every other such tick the Flow Estimator
runs (the feature list is necessarily non-empty there). -/
theorem C1_redetect_iff (ext : Collaborators) (n : Nat) (s : AppState)
    (surf prevf : Frame) (hs : s.mSurface = some surf)
    (hp : s.mPrevFrame = some prevf) :
    ((findOpticalFlow ext n s).2.any Call.isDetect = true ↔
      (s.mFeatures = [] ∨ n % 300 = 0)) ∧
    (¬(s.mFeatures = [] ∨ n % 300 = 0) →
      (findOpticalFlow ext n s).2.any Call.isFlow = true) := by
  rcases s with ⟨cap, tex, surf0, prevf0, pfs, fs, sts⟩
  obtain rfl : surf0 = some surf := hs
  obtain rfl : prevf0 = some prevf := hp
  by_cases hfe : fs = [] <;> by_cases hmod : n % 300 = 0 <;>
    simp [findOpticalFlow, SAMPLE_WINDOW_MOD, hfe, hmod, Call.isDetect, Call.isFlow] <;>
    split <;> simp [Call.isDetect, Call.isFlow]

theorem C1_witness :
    ((findOpticalFlow extMove 1 state0).2.any Call.isDetect = true ↔
      (state0.mFeatures = [] ∨ 1 % 300 = 0)) ∧
    (¬(state0.mFeatures = [] ∨ 1 % 300 = 0) →
      (findOpticalFlow extMove 1 state0).2.any Call.isFlow = true) :=
  C1_redetect_iff extMove 1 state0 0 0 rfl rfl

/-- C3 counterexample: after a re-detection tick completes, `mPrevFeatures`
and `mFeatures` are in general not equal, because `calcOpticalFlowPyrLK` runs
within the same tick and overwrites `mFeatures`: from `state0` with a detector
that finds `(0, 0)` and a flow estimator that moves every point by `(1, 1)`,
the tick re-detects yet ends with `mPrevFeatures = [(0, 0)]` and
`mFeatures = [(1, 1)]`. -/
theorem C3_counterexample :
    (findOpticalFlow extMove 1 state0).2.any Call.isDetect = true ∧
    (findOpticalFlow extMove 1 state0).1.mPrevFeatures ≠
      (findOpticalFlow extMove 1 state0).1.mFeatures := by
  constructor
  · decide
  · decide

/-- C3 amended: on a re-detection tick, `mPrevFeatures` and `mFeatures` are
both the freshly detected set from the end of the re-detection step until the
flow-estimation call; but that call happens within the same tick whenever the
detected set is non-empty, so when the tick completes `mPrevFeatures` is the
freshly detected set while `mFeatures` equals it only when the detected set is
empty (no flow call) and is otherwise the flow output on the detected set. -/
theorem C3_redetect_state (ext : Collaborators) (n : Nat) (s : AppState)
    (surf prevf : Frame) (hs : s.mSurface = some surf)
    (hp : s.mPrevFrame = some prevf) (hcond : s.mFeatures = [] ∨ n % 300 = 0) :
    (findOpticalFlow ext n s).1.mPrevFeatures =
      ext.goodFeaturesToTrack surf MAX_FEATURES QUALITY_LEVEL MIN_DISTANCE ∧
    (ext.goodFeaturesToTrack surf MAX_FEATURES QUALITY_LEVEL MIN_DISTANCE = [] →
      (findOpticalFlow ext n s).1.mFeatures =
        (findOpticalFlow ext n s).1.mPrevFeatures) ∧
    (ext.goodFeaturesToTrack surf MAX_FEATURES QUALITY_LEVEL MIN_DISTANCE ≠ [] →
      (findOpticalFlow ext n s).1.mFeatures =
        (ext.calcOpticalFlowPyrLK prevf surf
          (ext.goodFeaturesToTrack surf MAX_FEATURES QUALITY_LEVEL MIN_DISTANCE)).1) := by
  rcases s with ⟨cap, tex, surf0, prevf0, pfs, fs, sts⟩
  obtain rfl : surf0 = some surf := hs
  obtain rfl : prevf0 = some prevf := hp
  have hcond2 : fs = [] ∨ n % 300 = 0 := hcond
  rcases hcond2 with h | h <;>
    by_cases hg : ext.goodFeaturesToTrack surf MAX_FEATURES QUALITY_LEVEL MIN_DISTANCE = [] <;>
    simp [findOpticalFlow, SAMPLE_WINDOW_MOD, h, hg]

theorem C3_witness :
    (findOpticalFlow extMove 1 state0).1.mPrevFeatures =
      extMove.goodFeaturesToTrack 0 MAX_FEATURES QUALITY_LEVEL MIN_DISTANCE ∧
    (extMove.goodFeaturesToTrack 0 MAX_FEATURES QUALITY_LEVEL MIN_DISTANCE = [] →
      (findOpticalFlow extMove 1 state0).1.mFeatures =
        (findOpticalFlow extMove 1 state0).1.mPrevFeatures) ∧
    (extMove.goodFeaturesToTrack 0 MAX_FEATURES QUALITY_LEVEL MIN_DISTANCE ≠ [] →
      (findOpticalFlow extMove 1 state0).1.mFeatures =
        (extMove.calcOpticalFlowPyrLK 0 0
          (extMove.goodFeaturesToTrack 0 MAX_FEATURES QUALITY_LEVEL MIN_DISTANCE)).1) :=
  C3_redetect_state extMove 1 state0 0 0 rfl rfl (Or.inl rfl)

theorem findOpticalFlow_flow_lengths (ext : Collaborators) (hc : FlowContract ext)
    (n : Nat) (s : AppState)
    (hflow : (findOpticalFlow ext n s).2.any Call.isFlow = true) :
    (findOpticalFlow ext n s).1.mFeatures.length =
      (findOpticalFlow ext n s).1.mPrevFeatures.length ∧
    (findOpticalFlow ext n s).1.mFeatureStatuses.length =
      (findOpticalFlow ext n s).1.mPrevFeatures.length := by
  rcases s with ⟨cap, tex, surf0, prevf0, pfs, fs, sts⟩
  cases surf0 with
  | none => simp [findOpticalFlow] at hflow
  | some surf =>
    cases prevf0 with
    | none => simp [findOpticalFlow] at hflow
    | some prevf =>
      obtain ⟨hg1, hg2⟩ :=
        hc prevf surf (ext.goodFeaturesToTrack surf MAX_FEATURES QUALITY_LEVEL MIN_DISTANCE)
      obtain ⟨hf1, hf2⟩ := hc prevf surf fs
      by_cases hfe : fs = [] <;> by_cases hmod : n % 300 = 0 <;>
        by_cases hg : ext.goodFeaturesToTrack surf MAX_FEATURES QUALITY_LEVEL MIN_DISTANCE = [] <;>
        simp [findOpticalFlow, SAMPLE_WINDOW_MOD, hfe, hmod, hg, Call.isFlow,
          hg1, hg2, hf1, hf2] at hflow ⊢

/-- C5: on every tick on which the Flow Estimator was invoked, the
current-feature, previous-feature and match-status sequences have equal
length, given the documented Flow Estimator contract (`FlowContract`: tracking
losses are signalled through status flags, never by resizing the output). -/
theorem C5_flow_lengths (ext : Collaborators) (hc : FlowContract ext)
    (nf : Option Frame) (n : Nat) (s : AppState)
    (hflow : (update ext nf n s).2.any Call.isFlow = true) :
    (update ext nf n s).1.mFeatures.length =
      (update ext nf n s).1.mPrevFeatures.length ∧
    (update ext nf n s).1.mFeatureStatuses.length =
      (update ext nf n s).1.mPrevFeatures.length :=
  findOpticalFlow_flow_lengths ext hc n _ hflow

theorem C5_witness :
    (update extMove (some 1) 1 state0).1.mFeatures.length =
      (update extMove (some 1) 1 state0).1.mPrevFeatures.length ∧
    (update extMove (some 1) 1 state0).1.mFeatureStatuses.length =
      (update extMove (some 1) 1 state0).1.mPrevFeatures.length :=
  C5_flow_lengths extMove flowContract_extMove (some 1) 1 state0 (by decide)

/-- C6: in the line-drawing loop of `draw`, index `i` of the current feature
list produces the segment `(mFeatures[i], mPrevFeatures[i])` exactly when
`mFeatureStatuses[i]` is nonzero; a zero status never produces a line. -/
theorem C6_line_gating (s : AppState) (i : Nat) (hi : i < s.mFeatures.length) :
    (s.mFeatureStatuses.getD i 0 ≠ 0 →
      lineForIndex s i =
        some (s.mFeatures.getD i (0, 0), s.mPrevFeatures.getD i (0, 0)) ∧
      (s.mFeatures.getD i (0, 0), s.mPrevFeatures.getD i (0, 0)) ∈ drawFlowLines s) ∧
    (s.mFeatureStatuses.getD i 0 = 0 → lineForIndex s i = none) := by
  constructor
  · intro h
    have h1 : lineForIndex s i =
        some (s.mFeatures.getD i (0, 0), s.mPrevFeatures.getD i (0, 0)) := by
      unfold lineForIndex
      rw [if_pos h]
    refine ⟨h1, ?_⟩
    simp only [drawFlowLines, List.mem_filterMap]
    exact ⟨i, List.mem_range.mpr hi, h1⟩
  · intro h
    unfold lineForIndex
    rw [if_neg (not_not_intro h)]

theorem C6_witness :
    (state1.mFeatureStatuses.getD 0 0 ≠ 0 →
      lineForIndex state1 0 =
        some (state1.mFeatures.getD 0 (0, 0), state1.mPrevFeatures.getD 0 (0, 0)) ∧
      (state1.mFeatures.getD 0 (0, 0), state1.mPrevFeatures.getD 0 (0, 0)) ∈
        drawFlowLines state1) ∧
    (state1.mFeatureStatuses.getD 0 0 = 0 → lineForIndex state1 0 = none) :=
  C6_line_gating state1 0 (by decide)

theorem findOpticalFlow_detect_args (ext : Collaborators) (n : Nat) (s : AppState)
    (img : Frame) (mc : Nat) (q d : ℚ)
    (hmem : Call.detect img mc q d ∈ (findOpticalFlow ext n s).2) :
    mc = MAX_FEATURES ∧ q = QUALITY_LEVEL ∧ d = MIN_DISTANCE := by
  rcases s with ⟨cap, tex, surf0, prevf0, pfs, fs, sts⟩
  cases surf0 with
  | none => simp [findOpticalFlow] at hmem
  | some surf =>
    cases prevf0 with
    | none => simp [findOpticalFlow] at hmem
    | some prevf =>
      by_cases hfe : fs = [] <;> by_cases hmod : n % 300 = 0 <;>
        by_cases hg : ext.goodFeaturesToTrack surf MAX_FEATURES QUALITY_LEVEL MIN_DISTANCE = [] <;>
        simp [findOpticalFlow, SAMPLE_WINDOW_MOD, hfe, hmod, hg] at hmem <;>
        simp_all

/-- C7: every Feature Detector invocation recorded on any tick passes the
fixed maximum feature count `MAX_FEATURES = 300`, quality level
`QUALITY_LEVEL = 0.005` and minimum pairwise distance `MIN_DISTANCE = 3.0`. -/
theorem C7_detect_args (ext : Collaborators) (nf : Option Frame) (n : Nat)
    (s : AppState) (img : Frame) (mc : Nat) (q d : ℚ)
    (hmem : Call.detect img mc q d ∈ (update ext nf n s).2) :
    (mc = MAX_FEATURES ∧ q = QUALITY_LEVEL ∧ d = MIN_DISTANCE) ∧
    (mc = 300 ∧ q = 5 / 1000 ∧ d = 3) := by
  obtain ⟨h1, h2, h3⟩ := findOpticalFlow_detect_args ext n _ img mc q d hmem
  exact ⟨⟨h1, h2, h3⟩, by rw [h1]; rfl, by rw [h2]; rfl, by rw [h3]; rfl⟩

theorem C7_witness :
    ((300 : Nat) = MAX_FEATURES ∧ (5 / 1000 : ℚ) = QUALITY_LEVEL ∧
      (3 : ℚ) = MIN_DISTANCE) ∧
    ((300 : Nat) = 300 ∧ (5 / 1000 : ℚ) = 5 / 1000 ∧ (3 : ℚ) = 3) :=
  C7_detect_args extMove (some 1) 1 state0 1 300 (5 / 1000) 3
    (List.mem_cons_self _ _)

theorem statusesCover_findOpticalFlow (ext : Collaborators) (hc : FlowContract ext)
    (n : Nat) (s : AppState) (h : statusesCover s) :
    statusesCover (findOpticalFlow ext n s).1 := by
  rcases s with ⟨cap, tex, surf0, prevf0, pfs, fs, sts⟩
  cases surf0 with
  | none => exact h
  | some surf =>
    cases prevf0 with
    | none => exact h
    | some prevf =>
      obtain ⟨hg1, hg2⟩ :=
        hc prevf surf (ext.goodFeaturesToTrack surf MAX_FEATURES QUALITY_LEVEL MIN_DISTANCE)
      obtain ⟨hf1, hf2⟩ := hc prevf surf fs
      by_cases hfe : fs = [] <;> by_cases hmod : n % 300 = 0 <;>
        by_cases hg : ext.goodFeaturesToTrack surf MAX_FEATURES QUALITY_LEVEL MIN_DISTANCE = [] <;>
        simp [findOpticalFlow, SAMPLE_WINDOW_MOD, statusesCover, hfe, hmod, hg,
          hg1, hg2, hf1, hf2]

theorem statusesCover_update (ext : Collaborators) (hc : FlowContract ext)
    (nf : Option Frame) (n : Nat) (s : AppState) (h : statusesCover s) :
    statusesCover (update ext nf n s).1 := by
  rcases s with ⟨cap, tex, surf0, prevf0, pfs, fs, sts⟩
  cases cap <;> cases nf <;> exact statusesCover_findOpticalFlow ext hc n _ h

theorem statusesCover_runUpdates (ext : Collaborators) (hc : FlowContract ext)
    (ticks : List (Option Frame × Nat)) (s : AppState) (acc : List Call)
    (h : statusesCover s) :
    statusesCover (List.foldl
      (fun acc t =>
        let r := update ext t.1 t.2 acc.1
        (r.1, acc.2 ++ r.2))
      (s, acc) ticks).1 := by
  induction ticks generalizing s acc with
  | nil => exact h
  | cons t ts ih =>
    rw [List.foldl_cons]
    exact ih _ _ (statusesCover_update ext hc t.1 t.2 s h)

/-- C9: after every run of update ticks from a freshly set-up state, either
the current feature list is empty or the match-status list is at least as
long, so the unchecked `mFeatureStatuses[idx]` reads in the line loop of
`draw` stay in bounds (given the Flow Estimator contract `FlowContract`). -/
theorem C9_draw_safety (ext : Collaborators) (hc : FlowContract ext)
    (cameraOk : Bool) (ticks : List (Option Frame × Nat)) :
    statusesCover (runUpdates ext ticks (setup cameraOk).1).1 ∧
    ∀ i, i < (runUpdates ext ticks (setup cameraOk).1).1.mFeatures.length →
      i < (runUpdates ext ticks (setup cameraOk).1).1.mFeatureStatuses.length := by
  have h0 : statusesCover (setup cameraOk).1 := by
    cases cameraOk <;> exact Or.inl rfl
  have hmain : statusesCover (runUpdates ext ticks (setup cameraOk).1).1 :=
    statusesCover_runUpdates ext hc ticks (setup cameraOk).1 [] h0
  refine ⟨hmain, fun i hi => ?_⟩
  rcases hmain with hemp | hlen
  · rw [hemp] at hi
    simp at hi
  · exact lt_of_lt_of_le hi hlen

theorem C9_witness :
    statusesCover (runUpdates extMove [(some 1, 1), (none, 2)] (setup true).1).1 ∧
    ∀ i, i < (runUpdates extMove [(some 1, 1), (none, 2)] (setup true).1).1.mFeatures.length →
      i < (runUpdates extMove [(some 1, 1), (none, 2)] (setup true).1).1.mFeatureStatuses.length :=
  C9_draw_safety extMove flowContract_extMove true [(some 1, 1), (none, 2)]

end Project2
